import Mathlib

/-
Verification of the Koda frontend agent client against its specification.

The definitions below are a shallow embedding of the TypeScript sources:
  - frontend/src/stores/agentStore.ts     (Zustand store: state and actions)
  - frontend/src/hooks/useAgentWebSocket.ts (WebSocket message handling and
    reconnection with bounded exponential backoff)
  - pages/DashboardPage.tsx               (approval handlers and render condition)
  - components/agent/ApprovalFlow.tsx     (render cases of the approval panel)

TypeScript string unions (phases, statuses) are embedded as plain `String`,
matching their JavaScript runtime representation.  `null`/`undefined` values
are embedded as `Option`.  Store actions become pure functions
`AgentStore → AgentStore`.
-/

namespace Koda

/-- A recorded tool call (types/agent.ts `ToolCall`); `id` is the stringified
counter value `String(++toolCallId)` from agentStore.ts. -/
structure ToolCall where
  id : String
  name : String
  args : String
  status : String
  result : Option String
deriving DecidableEq

/-- A raw plan step as it appears in the `plan` event payload: either a plain
string or an object with optional `description` and `tool` fields
(useAgentWebSocket.ts treats both shapes). -/
inductive StepData where
  | strStep : String → StepData
  | objStep : Option String → Option String → StepData
deriving DecidableEq

/-- A plan step as stored (types/agent.ts `PlanStep`).  The `description`
slot holds the JavaScript value produced by
`(step as {description?: string}).description || (step as string)`:
normally a string, but for an object step with a falsy `description` the
raw step value itself. -/
structure PlanStep where
  description : StepData
  tool : Option String
  status : String
deriving DecidableEq

/-- A staged file change (types/changes.ts `StagedChange`). -/
structure StagedChange where
  path : String
  changeType : String
  originalContent : Option String
  newContent : String
deriving DecidableEq

/-- types/agent.ts `AgentState`. -/
structure AgentState where
  phase : String
  task : Option String
  summary : Option String
  plan : List PlanStep
  toolCalls : List ToolCall
  error : Option String
deriving DecidableEq

/-- agentStore.ts `TaskHistoryItem`; the `Date` timestamp is embedded as a
number (milliseconds). -/
structure TaskHistoryItem where
  id : String
  task : String
  status : String
  timestamp : Nat
  repoUrl : Option String
  prUrl : Option String
deriving DecidableEq

/-- agentStore.ts `PRResult`. -/
structure PRResult where
  url : String
  number : Nat
deriving DecidableEq

/-- The Zustand store state (agentStore.ts `AgentStore`), together with the
module-level `toolCallId` counter, which is reset by `reset()` and bumped by
`addToolCall`. -/
structure AgentStore where
  agentState : AgentState
  stagedChanges : List StagedChange
  isConnected : Bool
  prResult : Option PRResult
  taskHistory : List TaskHistoryItem
  currentTaskId : Option String
  toolCallId : Nat
deriving DecidableEq

/-- agentStore.ts `initialAgentState`. -/
def initialAgentState : AgentState :=
  { phase := "idle", task := none, summary := none, plan := [],
    toolCalls := [], error := none }

/-- agentStore.ts `setPhase`. -/
def setPhase (phase : String) (s : AgentStore) : AgentStore :=
  { s with agentState := { s.agentState with phase := phase } }

/-- agentStore.ts `setTask`. -/
def setTask (task : String) (s : AgentStore) : AgentStore :=
  { s with agentState := { s.agentState with task := some task } }

/-- agentStore.ts `setSummary`; the handler passes `data.summary`, which may
be absent, hence the `Option` argument. -/
def setSummary (summary : Option String) (s : AgentStore) : AgentStore :=
  { s with agentState := { s.agentState with summary := summary } }

/-- agentStore.ts `setPlan`. -/
def setPlan (plan : List PlanStep) (s : AgentStore) : AgentStore :=
  { s with agentState := { s.agentState with plan := plan } }

/-- agentStore.ts `addToolCall`: appends the call with id `String(++toolCallId)`. -/
def addToolCall (name args status : String) (s : AgentStore) : AgentStore :=
  { s with
    toolCallId := s.toolCallId + 1,
    agentState := { s.agentState with
      toolCalls := s.agentState.toolCalls ++
        [{ id := toString (s.toolCallId + 1), name := name, args := args,
           status := status, result := none }] } }

/-- agentStore.ts `updateToolCall`: every recorded call whose name matches and
whose status is `running` gets the result and status `complete`. -/
def updateToolCall (name result : String) (s : AgentStore) : AgentStore :=
  { s with agentState := { s.agentState with
      toolCalls := s.agentState.toolCalls.map (fun tc =>
        if tc.name = name ∧ tc.status = "running" then
          { tc with result := some result, status := "complete" }
        else tc) } }

/-- agentStore.ts `setStagedChanges`. -/
def setStagedChanges (changes : List StagedChange) (s : AgentStore) : AgentStore :=
  { s with stagedChanges := changes }

/-- agentStore.ts `setPRResult`. -/
def setPRResult (result : Option PRResult) (s : AgentStore) : AgentStore :=
  { s with prResult := result }

/-- agentStore.ts `setError`: records the message and forces phase `error`. -/
def setError (error : String) (s : AgentStore) : AgentStore :=
  { s with agentState := { s.agentState with phase := "error", error := some error } }

/-- agentStore.ts `setConnected`. -/
def setConnected (connected : Bool) (s : AgentStore) : AgentStore :=
  { s with isConnected := connected }

/-- agentStore.ts `addTaskToHistory`; `id` stands for the `crypto.randomUUID()`
value and `timestamp` for `new Date()`, both inputs of the embedding. -/
def addTaskToHistory (id task : String) (repoUrl : Option String) (timestamp : Nat)
    (s : AgentStore) : AgentStore :=
  let newItem : TaskHistoryItem :=
    { id := id, task := task, status := "running", timestamp := timestamp,
      repoUrl := repoUrl, prUrl := none }
  { s with
    taskHistory := (newItem :: s.taskHistory).take 20,
    currentTaskId := some id }

/-- agentStore.ts `updateTaskStatus`; `prUrl = none` embeds an absent or null
argument, in which case `prUrl ?? t.prUrl` keeps the old value. -/
def updateTaskStatus (id status : String) (prUrl : Option String)
    (s : AgentStore) : AgentStore :=
  { s with taskHistory := s.taskHistory.map (fun t =>
      if t.id = id then
        { t with status := status,
                 prUrl := match prUrl with | some u => some u | none => t.prUrl }
      else t) }

/-- agentStore.ts `setTaskHistory`. -/
def setTaskHistory (history : List TaskHistoryItem) (s : AgentStore) : AgentStore :=
  { s with taskHistory := history }

/-- agentStore.ts `setCurrentTaskId`. -/
def setCurrentTaskId (id : Option String) (s : AgentStore) : AgentStore :=
  { s with currentTaskId := id }

/-- agentStore.ts `reset`: zeroes `toolCallId` and restores the per-task
slots of the store; `taskHistory` is not in the `set` call. -/
def reset (s : AgentStore) : AgentStore :=
  { s with
    agentState := initialAgentState,
    stagedChanges := [],
    isConnected := false,
    prResult := none,
    currentTaskId := none,
    toolCallId := 0 }

/-- Payload of a `summary` wire event.  The record has one optional slot per
JSON key of interest: `summary` is the key the client handler reads
(`setSummary(data.summary)` in useAgentWebSocket.ts) and `text` is the key
named by the documented wire format; `none` means the key is absent. -/
structure SummaryData where
  summary : Option String
  text : Option String
deriving DecidableEq

/-- Payload of a `plan` wire event, with one optional slot per JSON key of
interest: the client handler reads `data.plan`; the documented wire format
names `steps`. -/
structure PlanData where
  plan : Option (List StepData)
  steps : Option (List StepData)
deriving DecidableEq

/-- A decoded server→client message `{type, data}`, one constructor per
`type` string the onmessage switch in useAgentWebSocket.ts handles, each
carrying the payload fields that handler reads. -/
inductive Msg where
  | phaseEv (phase : String)
  | toolCallEv (name args : String)
  | toolResultEv (name result : String)
  | summaryEv (data : SummaryData)
  | planEv (data : PlanData)
  | completeEv (phase : String) (changes : Option (List StagedChange))
  | errorEv (message : String) (code : Option String)
deriving DecidableEq

/-- The per-step mapping of the `plan` handler:
`description: step.description || step`, `tool: step.tool || null`,
`status: 'pending'` (JavaScript `||` falls through on `undefined` and `""`). -/
def toPlanStep (step : StepData) : PlanStep :=
  match step with
  | .strStep s => { description := .strStep s, tool := none, status := "pending" }
  | .objStep d t =>
      { description :=
          match d with
          | some sd => if sd = "" then StepData.objStep d t else StepData.strStep sd
          | none => StepData.objStep d t,
        tool :=
          match t with
          | some st => if st = "" then none else some st
          | none => none,
        status := "pending" }

/-- One task run's client-side connection: the store plus whether the socket
has been closed by the client (`isIntentionallyClosed` set and `ws.close()`
called on `complete` and `error`, after which no further message events are
dispatched and `onclose` does not reconnect). -/
structure ClientConn where
  store : AgentStore
  closed : Bool
deriving DecidableEq

/-- The onmessage switch of useAgentWebSocket.ts as a step function.
`historyId` is the closed-over task-history id.  A `plan` payload without a
`plan` key would make `data.plan.map` throw before any store mutation, so
the state is unchanged in that case. -/
def handleMessage (historyId : String) (m : Msg) (c : ClientConn) : ClientConn :=
  if c.closed then c
  else
    match m with
    | .phaseEv p => { c with store := setPhase p c.store }
    | .toolCallEv n a => { c with store := addToolCall n a "running" c.store }
    | .toolResultEv n r => { c with store := updateToolCall n r c.store }
    | .summaryEv d => { c with store := setSummary d.summary c.store }
    | .planEv d =>
        match d.plan with
        | some steps => { c with store := setPlan (steps.map toPlanStep) c.store }
        | none => c
    | .completeEv p changes =>
        { store := updateTaskStatus historyId "complete" none
            (setStagedChanges (changes.getD []) (setPhase p c.store)),
          closed := true }
    | .errorEv message _code =>
        { store := updateTaskStatus historyId "error" none (setError message c.store),
          closed := true }

/-- Folding a list of server messages through the handler. -/
def processEvents (historyId : String) (ms : List Msg) (c : ClientConn) : ClientConn :=
  ms.foldl (fun acc m => handleMessage historyId m acc) c

lemma handleMessage_closed (historyId : String) (m : Msg) (c : ClientConn)
    (h : c.closed = true) : handleMessage historyId m c = c := by
  simp [handleMessage, h]

lemma processEvents_closed (historyId : String) (ms : List Msg) (c : ClientConn)
    (h : c.closed = true) : processEvents historyId ms c = c := by
  induction ms with
  | nil => rfl
  | cons m rest ih =>
      show processEvents historyId rest (handleMessage historyId m c) = c
      rw [handleMessage_closed historyId m c h, ih]

/-- A map that touches no element of a list leaves it unchanged. -/
lemma map_of_no_match {α : Type} (f : α → α) (l : List α) (p : α → Prop)
    [DecidablePred p] (h : ∀ x ∈ l, ¬ p x) :
    (l.map (fun x => if p x then f x else x)) = l := by
  induction l with
  | nil => rfl
  | cons a rest ih =>
      have ha : ¬ p a := h a (List.mem_cons_self a rest)
      simp only [List.map_cons, if_neg ha]
      rw [ih (fun x hx => h x (List.mem_cons_of_mem a hx))]

/-- C3 counterexample: a summary payload carrying both keys is recorded from
the `summary` field, not from `text`, and a plan payload carrying both keys
is recorded from the `plan` field, not from `steps` — refuting the claim
that the client takes the values from `text` and `steps`. -/
theorem C3_counterexample :
    (handleMessage "h"
        (Msg.summaryEv { summary := some "value of summary key",
                         text := some "value of text key" })
        { store := { agentState := initialAgentState, stagedChanges := [],
                     isConnected := false, prResult := none, taskHistory := [],
                     currentTaskId := none, toolCallId := 0 },
          closed := false }).store.agentState.summary = some "value of summary key" ∧
    (handleMessage "h"
        (Msg.summaryEv { summary := some "value of summary key",
                         text := some "value of text key" })
        { store := { agentState := initialAgentState, stagedChanges := [],
                     isConnected := false, prResult := none, taskHistory := [],
                     currentTaskId := none, toolCallId := 0 },
          closed := false }).store.agentState.summary ≠ some "value of text key" ∧
    (handleMessage "h"
        (Msg.planEv { plan := some [StepData.strStep "from plan key"],
                      steps := some [StepData.strStep "from steps key"] })
        { store := { agentState := initialAgentState, stagedChanges := [],
                     isConnected := false, prResult := none, taskHistory := [],
                     currentTaskId := none, toolCallId := 0 },
          closed := false }).store.agentState.plan =
      [{ description := StepData.strStep "from plan key", tool := none,
         status := "pending" }] := by
  refine ⟨rfl, ?_, rfl⟩
  intro h
  simp [handleMessage, setSummary, initialAgentState] at h

/-- C3 (amended): on an open connection the client records the summary from
payload field `summary` and the plan from payload field `plan` (each step
mapped by the handler's conversion); the `text` and `steps` fields play no
role. -/
theorem C3_amended_fields (historyId : String) (d : SummaryData) (pd : PlanData)
    (steps : List StepData) (c : ClientConn)
    (hc : c.closed = false) (hp : pd.plan = some steps) :
    (handleMessage historyId (Msg.summaryEv d) c).store.agentState.summary = d.summary ∧
    (handleMessage historyId (Msg.planEv pd) c).store.agentState.plan =
      steps.map toPlanStep := by
  constructor
  · simp [handleMessage, hc, setSummary]
  · simp [handleMessage, hc, hp, setPlan]

theorem C3_amended_fields_witness :
    (handleMessage "h" (Msg.summaryEv { summary := some "s", text := none })
        { store := { agentState := initialAgentState, stagedChanges := [],
                     isConnected := false, prResult := none, taskHistory := [],
                     currentTaskId := none, toolCallId := 0 },
          closed := false }).store.agentState.summary = some "s" :=
  (C3_amended_fields "h" { summary := some "s", text := none }
    { plan := some [], steps := none } []
    { store := { agentState := initialAgentState, stagedChanges := [],
                 isConnected := false, prResult := none, taskHistory := [],
                 currentTaskId := none, toolCallId := 0 },
      closed := false } rfl rfl).1

/-- C4: when the recorded tool-call list has exactly one call with the given
name in status `running` (the list splits around it with no other match),
`updateToolCall` turns exactly that call into status `complete` with the
result stored, and every other recorded call is unchanged. -/
theorem C4_tool_result_updates_unique_running (s : AgentStore) (n r : String)
    (front back : List ToolCall) (tc : ToolCall)
    (hsplit : s.agentState.toolCalls = front ++ tc :: back)
    (hname : tc.name = n) (hrun : tc.status = "running")
    (hfront : ∀ x ∈ front, ¬ (x.name = n ∧ x.status = "running"))
    (hback : ∀ x ∈ back, ¬ (x.name = n ∧ x.status = "running")) :
    (updateToolCall n r s).agentState.toolCalls =
      front ++ { tc with result := some r, status := "complete" } :: back := by
  simp only [updateToolCall, hsplit, List.map_append, List.map_cons]
  rw [map_of_no_match _ front _ hfront, map_of_no_match _ back _ hback,
    if_pos ⟨hname, hrun⟩]

theorem C4_tool_result_updates_unique_running_witness :
    (updateToolCall "read_file" "ok"
      { agentState := { initialAgentState with
          toolCalls :=
            [{ id := "1", name := "read_file", args := "a", status := "complete",
               result := some "old" },
             { id := "2", name := "read_file", args := "b", status := "running",
               result := none },
             { id := "3", name := "search_code", args := "c", status := "running",
               result := none }] },
        stagedChanges := [], isConnected := false, prResult := none,
        taskHistory := [], currentTaskId := none,
        toolCallId := 3 }).agentState.toolCalls =
      [{ id := "1", name := "read_file", args := "a", status := "complete",
         result := some "old" },
       { id := "2", name := "read_file", args := "b", status := "complete",
         result := some "ok" },
       { id := "3", name := "search_code", args := "c", status := "running",
         result := none }] := by
  have h := C4_tool_result_updates_unique_running
    { agentState := { initialAgentState with
        toolCalls :=
          [{ id := "1", name := "read_file", args := "a", status := "complete",
             result := some "old" },
           { id := "2", name := "read_file", args := "b", status := "running",
             result := none },
           { id := "3", name := "search_code", args := "c", status := "running",
             result := none }] },
      stagedChanges := [], isConnected := false, prResult := none,
      taskHistory := [], currentTaskId := none, toolCallId := 3 }
    "read_file" "ok"
    [{ id := "1", name := "read_file", args := "a", status := "complete",
       result := some "old" }]
    [{ id := "3", name := "search_code", args := "c", status := "running",
       result := none }]
    { id := "2", name := "read_file", args := "b", status := "running",
      result := none }
    rfl rfl rfl (by decide) (by decide)
  simpa using h

/-- C7: on an open connection, an `error` event sets the phase to `error` and
records the message, the connection is closed by the handler, and no list of
subsequent server events changes the client state at all within the same
task run (so the phase never leaves `error`). -/
theorem C7_error_terminal (historyId message : String) (code : Option String)
    (ms : List Msg) (c : ClientConn) (hc : c.closed = false) :
    (handleMessage historyId (Msg.errorEv message code) c).store.agentState.phase
      = "error" ∧
    (handleMessage historyId (Msg.errorEv message code) c).store.agentState.error
      = some message ∧
    processEvents historyId ms (handleMessage historyId (Msg.errorEv message code) c)
      = handleMessage historyId (Msg.errorEv message code) c := by
  refine ⟨?_, ?_, ?_⟩
  · simp [handleMessage, hc, updateTaskStatus, setError]
  · simp [handleMessage, hc, updateTaskStatus, setError]
  · apply processEvents_closed
    simp [handleMessage, hc]

theorem C7_error_terminal_witness :
    (processEvents "h" [Msg.phaseEv "executing"]
      (handleMessage "h" (Msg.errorEv "boom" none)
        { store := { agentState := { initialAgentState with phase := "planning" },
                     stagedChanges := [], isConnected := false, prResult := none,
                     taskHistory := [], currentTaskId := none, toolCallId := 0 },
          closed := false })).store.agentState.phase = "error" := by
  have h := C7_error_terminal "h" "boom" none [Msg.phaseEv "executing"]
    { store := { agentState := { initialAgentState with phase := "planning" },
                 stagedChanges := [], isConnected := false, prResult := none,
                 taskHistory := [], currentTaskId := none, toolCallId := 0 },
      closed := false } rfl
  rw [h.2.2]
  exact h.1

/-- useAgentWebSocket.ts `MAX_RECONNECT_ATTEMPTS`. -/
def MAX_RECONNECT_ATTEMPTS : Nat := 3

/-- useAgentWebSocket.ts `INITIAL_RECONNECT_DELAY` (milliseconds). -/
def INITIAL_RECONNECT_DELAY : Nat := 1000

/-- useAgentWebSocket.ts `MAX_RECONNECT_DELAY` (milliseconds). -/
def MAX_RECONNECT_DELAY : Nat := 10000

/-- The mutable refs of useAgentWebSocket.ts that drive reconnection, plus a
count of how many times the initiating `{task, repo_url?, branch?}` message
has been sent on the task's channel. -/
structure ConnState where
  reconnectAttempts : Nat
  reconnectDelay : Nat
  isIntentionallyClosed : Bool
  sentInitCount : Nat
deriving DecidableEq

/-- The refs as initialized for a fresh task run (`runTask` resets the
attempt counter and delay before connecting). -/
def initConnState : ConnState :=
  { reconnectAttempts := 0, reconnectDelay := INITIAL_RECONNECT_DELAY,
    isIntentionallyClosed := false, sentInitCount := 0 }

/-- What `ws.onclose` does besides mutating the refs. -/
inductive CloseAction where
  | reconnectAfter (delayMs : Nat)
  | reportError
  | noAction
deriving DecidableEq

/-- `ws.onclose` of useAgentWebSocket.ts: if not intentionally closed and the
attempt budget remains, increment the counter, schedule `connect` after the
current delay, then double the delay capped at `MAX_RECONNECT_DELAY`;
with the budget exhausted, report the error instead. -/
def onUnexpectedClose (s : ConnState) : ConnState × CloseAction :=
  if s.isIntentionallyClosed then (s, .noAction)
  else if s.reconnectAttempts < MAX_RECONNECT_ATTEMPTS then
    ({ s with
        reconnectAttempts := s.reconnectAttempts + 1,
        reconnectDelay := min (s.reconnectDelay * 2) MAX_RECONNECT_DELAY },
     .reconnectAfter s.reconnectDelay)
  else (s, .reportError)

/-- `ws.onopen` of useAgentWebSocket.ts: reset the attempt counter and delay
and, whenever the closed-over `task` string is truthy (non-empty), send the
initiating message.  On a reconnection `connect` is called with the saved
`currentTask.current`, so `task` is the same non-empty string. -/
def onSocketOpen (task : String) (s : ConnState) : ConnState :=
  { s with
    reconnectAttempts := 0,
    reconnectDelay := INITIAL_RECONNECT_DELAY,
    sentInitCount := s.sentInitCount + (if task = "" then 0 else 1) }

/-- State and emitted actions after a run of `n` consecutive unexpected
closures with no successful re-open in between. -/
def closeSeq : Nat → ConnState × List CloseAction
  | 0 => (initConnState, [])
  | n + 1 =>
      ((onUnexpectedClose (closeSeq n).1).1,
       (closeSeq n).2 ++ [(onUnexpectedClose (closeSeq n).1).2])

/-- The delays of the reconnect attempts scheduled by a list of close
actions, in order. -/
def scheduledDelays : List CloseAction → List Nat
  | [] => []
  | CloseAction.reconnectAfter d :: rest => d :: scheduledDelays rest
  | CloseAction.reportError :: rest => scheduledDelays rest
  | CloseAction.noAction :: rest => scheduledDelays rest

lemma scheduledDelays_append (a b : List CloseAction) :
    scheduledDelays (a ++ b) = scheduledDelays a ++ scheduledDelays b := by
  induction a with
  | nil => rfl
  | cons x rest ih => cases x <;> simp [scheduledDelays, ih]

lemma scheduledDelays_map_reconnect (ds : List Nat) :
    scheduledDelays (ds.map CloseAction.reconnectAfter) = ds := by
  induction ds with
  | nil => rfl
  | cons d rest ih => simp [scheduledDelays, ih]

lemma scheduledDelays_replicate_report (k : Nat) :
    scheduledDelays (List.replicate k CloseAction.reportError) = [] := by
  induction k with
  | zero => rfl
  | succ k ih => simp [List.replicate_succ, scheduledDelays, ih]

/-- Closed form of a run of consecutive unexpected closures: the first
`min n 3` closures schedule reconnects after 1000·2^k ms, every later
closure reports the error, and the refs saturate at 3 attempts. -/
lemma closeSeq_spec (n : Nat) :
    (closeSeq n).1.reconnectAttempts = min n 3 ∧
    (closeSeq n).1.reconnectDelay = min (1000 * 2 ^ min n 3) 10000 ∧
    (closeSeq n).1.isIntentionallyClosed = false ∧
    (closeSeq n).2 =
      (List.range (min n 3)).map (fun k => CloseAction.reconnectAfter (1000 * 2 ^ k))
        ++ List.replicate (n - 3) CloseAction.reportError := by
  induction n with
  | zero => decide
  | succ n ih =>
      by_cases hn : n < 3
      · interval_cases n <;> decide
      · obtain ⟨ha, hd, hi, hacts⟩ := ih
        have hmn : min n 3 = 3 := Nat.min_eq_right (by omega)
        have hmn1 : min (n + 1) 3 = 3 := Nat.min_eq_right (by omega)
        have hclose : onUnexpectedClose (closeSeq n).1 = ((closeSeq n).1, .reportError) := by
          rw [onUnexpectedClose, if_neg (by simp [hi]), if_neg (by
            rw [ha, hmn]
            simp [MAX_RECONNECT_ATTEMPTS])]
        refine ⟨?_, ?_, ?_, ?_⟩
        · rw [closeSeq, hclose, ha, hmn, hmn1]
        · rw [closeSeq, hclose, hd, hmn, hmn1]
        · rw [closeSeq, hclose, hi]
        · rw [closeSeq, hclose, hacts, hmn, hmn1]
          have hsub : n + 1 - 3 = (n - 3) + 1 := by omega
          rw [hsub, List.replicate_succ', List.append_assoc]

/-- C5: in any run of consecutive unexpected closures, at most 3 reconnect
attempts are scheduled; their delays are exactly 1000·2^k ms for the k-th
attempt (1 s, then doubling); every scheduled delay is at most the 10 s cap;
and once the budget of 3 is exhausted each further closure reports the
connection error instead of scheduling a reconnect. -/
theorem C5_bounded_exponential_backoff (n : Nat) :
    (scheduledDelays (closeSeq n).2).length ≤ 3 ∧
    scheduledDelays (closeSeq n).2 =
      (List.range (min n 3)).map (fun k => INITIAL_RECONNECT_DELAY * 2 ^ k) ∧
    (∀ d ∈ scheduledDelays (closeSeq n).2, d ≤ MAX_RECONNECT_DELAY) ∧
    (3 < n →
      CloseAction.reportError ∈ (closeSeq n).2 ∧
      scheduledDelays (closeSeq n).2 = [1000, 2000, 4000]) := by
  obtain ⟨-, -, -, hacts⟩ := closeSeq_spec n
  have hdelays : scheduledDelays (closeSeq n).2 =
      (List.range (min n 3)).map (fun k => 1000 * 2 ^ k) := by
    rw [hacts, scheduledDelays_append, scheduledDelays_replicate_report,
      List.append_nil]
    have hmm : (List.range (min n 3)).map
        (fun k => CloseAction.reconnectAfter (1000 * 2 ^ k)) =
        ((List.range (min n 3)).map (fun k => 1000 * 2 ^ k)).map
          CloseAction.reconnectAfter := by
      rw [List.map_map]
      rfl
    rw [hmm, scheduledDelays_map_reconnect]
  refine ⟨?_, ?_, ?_, ?_⟩
  · rw [hdelays]
    simp only [List.length_map, List.length_range]
    omega
  · rw [hdelays]
    rfl
  · intro d hd
    rw [hdelays] at hd
    obtain ⟨k, hk, hdk⟩ := List.mem_map.mp hd
    rw [List.mem_range] at hk
    have hk2 : k ≤ 2 := by omega
    subst hdk
    have : (2 : Nat) ^ k ≤ 2 ^ 2 := Nat.pow_le_pow_right (by norm_num) hk2
    simp only [MAX_RECONNECT_DELAY]
    omega
  · intro h3
    constructor
    · rw [hacts]
      refine List.mem_append_right _ ?_
      rw [List.mem_replicate]
      exact ⟨by omega, rfl⟩
    · rw [hdelays, Nat.min_eq_right (by omega)]
      rfl

theorem C5_bounded_exponential_backoff_witness :
    3 < 5 ∧ CloseAction.reportError ∈ (closeSeq 5).2 ∧
      scheduledDelays (closeSeq 5).2 = [1000, 2000, 4000] :=
  ⟨by omega, (C5_bounded_exponential_backoff 5).2.2.2 (by omega)⟩

/-- Socket lifecycle events of one task run as seen by the hook's handlers:
a successful (re)open, or an unexpected closure. -/
inductive SockEvent where
  | openEv
  | closeEv
deriving DecidableEq

/-- Iterating the open/close handlers over a lifecycle trace; `task` is the
closed-over task string, identical on the initial connection and on every
reconnection. -/
def runSock (task : String) : List SockEvent → ConnState → ConnState
  | [], s => s
  | SockEvent.openEv :: rest, s => runSock task rest (onSocketOpen task s)
  | SockEvent.closeEv :: rest, s => runSock task rest (onUnexpectedClose s).1

/-- C6: the initiating message is NOT sent exactly once.  On the trace
"open, unexpected close, reconnect open" with a non-empty task, `ws.onopen`
sends the `{task, ...}` message on both opens — its guard `if (task)` is
also true on reconnection — so the message goes out twice, contrary to the
claim and to the handler's own comment that it is only sent on the initial
connection.  (The first closure schedules a reconnect, so the second open is
reachable: see the reconnect budget facts proved for the backoff model.) -/
theorem C6_initiating_message_resent_on_reconnect :
    (runSock "create hello.txt with hi"
      [SockEvent.openEv, SockEvent.closeEv, SockEvent.openEv]
      initConnState).sentInitCount = 2 ∧
    (onUnexpectedClose (onSocketOpen "create hello.txt with hi" initConnState)).2 =
      CloseAction.reconnectAfter 1000 := by
  constructor <;> rfl

/-- A selected repository (hooks `RepoInfo`). -/
structure RepoInfo where
  url : String
  branch : String
deriving DecidableEq

/-- Response body of the approval endpoint as DashboardPage reads it. -/
structure ApproveResponse where
  success : Bool
  pr_url : Option String
  pr_number : Option Nat
  message : String
deriving DecidableEq

/-- Request body sent to `approveChanges`. -/
structure ApproveRequest where
  approved : Bool
  repo_url : Option String
  branch : Option String
  task_description : Option String
deriving DecidableEq

/-- Outcome of an awaited API call: a resolved value or a thrown error. -/
inductive ApiResult (α : Type) where
  | ok : α → ApiResult α
  | err : String → ApiResult α
deriving DecidableEq

/-- JavaScript `x || null` / `x || undefined` on an optional string: the
empty string is falsy and collapses to `none`. -/
def jsStringOrNone : Option String → Option String
  | some "" => none
  | o => o

/-- The request DashboardPage's `handleApprove` sends:
`approveChanges(token, { approved: true, repo_url: selectedRepo?.url,
branch: selectedRepo?.branch, task_description: agentState.task || undefined })`. -/
def approveRequestOf (selectedRepo : Option RepoInfo) (s : AgentStore) :
    ApproveRequest :=
  { approved := true,
    repo_url := selectedRepo.map (fun rp => rp.url),
    branch := selectedRepo.map (fun rp => rp.branch),
    task_description := jsStringOrNone s.agentState.task }

/-- The request DashboardPage's `handleReject` sends:
`approveChanges(token, { approved: false })`. -/
def rejectRequestBody : ApproveRequest :=
  { approved := false, repo_url := none, branch := none, task_description := none }

@[simp] lemma agentState_updateTaskStatus (id status : String) (prUrl : Option String)
    (s : AgentStore) : (updateTaskStatus id status prUrl s).agentState = s.agentState :=
  rfl

@[simp] lemma stagedChanges_updateTaskStatus (id status : String) (prUrl : Option String)
    (s : AgentStore) :
    (updateTaskStatus id status prUrl s).stagedChanges = s.stagedChanges :=
  rfl

@[simp] lemma agentState_setPRResult (result : Option PRResult) (s : AgentStore) :
    (setPRResult result s).agentState = s.agentState :=
  rfl

@[simp] lemma stagedChanges_setPRResult (result : Option PRResult) (s : AgentStore) :
    (setPRResult result s).stagedChanges = s.stagedChanges :=
  rfl

@[simp] lemma phase_setPhase (phase : String) (s : AgentStore) :
    (setPhase phase s).agentState.phase = phase :=
  rfl

@[simp] lemma stagedChanges_setPhase (phase : String) (s : AgentStore) :
    (setPhase phase s).stagedChanges = s.stagedChanges :=
  rfl

@[simp] lemma stagedChanges_setStagedChanges (changes : List StagedChange)
    (s : AgentStore) : (setStagedChanges changes s).stagedChanges = changes :=
  rfl

@[simp] lemma agentState_setStagedChanges (changes : List StagedChange)
    (s : AgentStore) : (setStagedChanges changes s).agentState = s.agentState :=
  rfl

/-- DashboardPage `handleApprove`, as the effect of the awaited call's outcome
on the store: no token or a thrown request leaves the store untouched (the
catch block only raises a toast); a resolved response with `success` records
the PR result when `pr_url` and `pr_number` are truthy, sets phase
`complete`, clears the staged changes, and marks the current history item
complete when a current task id exists. -/
def handleApprove (token : Option String) (resp : ApiResult ApproveResponse)
    (s : AgentStore) : AgentStore :=
  match token with
  | none => s
  | some _ =>
    match resp with
    | .err _ => s
    | .ok r =>
      if r.success then
        let prUrl := jsStringOrNone r.pr_url
        let s1 :=
          match prUrl, r.pr_number with
          | some u, some k =>
              if k = 0 then s else setPRResult (some { url := u, number := k }) s
          | _, _ => s
        let s2 := setStagedChanges [] (setPhase "complete" s1)
        match s.currentTaskId with
        | some tid => updateTaskStatus tid "complete" prUrl s2
        | none => s2
      else s

/-- DashboardPage `handleReject`: no token or a thrown request leaves the
store untouched; a resolved response sets phase `complete`, clears the
staged changes, and marks the current history item complete. -/
def handleReject (token : Option String) (resp : ApiResult ApproveResponse)
    (s : AgentStore) : AgentStore :=
  match token with
  | none => s
  | some _ =>
    match resp with
    | .err _ => s
    | .ok _ =>
      let s2 := setStagedChanges [] (setPhase "complete" s)
      match s.currentTaskId with
      | some tid => updateTaskStatus tid "complete" none s2
      | none => s2

/-- DashboardPage's render guard for the ApprovalFlow component:
`(agentState.phase === 'awaiting_approval' && stagedChanges.length > 0) || prResult`. -/
def dashboardShowsApprovalFlow (s : AgentStore) : Bool :=
  (s.agentState.phase == "awaiting_approval" && decide (0 < s.stagedChanges.length))
    || s.prResult.isSome

/-- What the mounted ApprovalFlow component renders. -/
inductive ApprovalRender where
  | prSuccessCard (pr : PRResult)
  | reviewPanel (changes : List StagedChange)
  | nothing
deriving DecidableEq

/-- The early returns of ApprovalFlow.tsx: with a PR result it renders the
PR-success card (checked first), then with an empty change list it renders
nothing, otherwise the review panel. -/
def approvalFlowRender (changes : List StagedChange) (prResult : Option PRResult) :
    ApprovalRender :=
  match prResult with
  | some pr => .prSuccessCard pr
  | none => if changes.isEmpty then .nothing else .reviewPanel changes

/-- Modelled from the spec: the Phase Controller's transition at the end of
the `executing` phase (the orchestrator backend is not among these sources):
"On completion of `executing`, if the ChangeSet is empty the controller
moves directly to `complete`; otherwise to `awaiting_approval`". -/
def endOfExecutingNextPhase (changeset : List StagedChange) : String :=
  if changeset.isEmpty then "complete" else "awaiting_approval"

/-- Modelled from the spec: the Change Manager applying one staged change to
the repository (a path→content association list): creates and modifies write
`new_content` at the path, deletes remove the path. -/
def applyChange (repo : List (String × String)) (c : StagedChange) :
    List (String × String) :=
  if c.changeType = "delete" then repo.filter (fun p => p.1 ≠ c.path)
  else (repo.filter (fun p => p.1 ≠ c.path)) ++ [(c.path, c.newContent)]

/-- Modelled from the spec: the Change Manager's `apply()` over a whole
ChangeSet, in order. -/
def applyChangeSet (staged : List StagedChange) (repo : List (String × String)) :
    List (String × String) :=
  staged.foldl applyChange repo

/-- Modelled from the spec: the backend resolution of the approval decision —
"Approval triggers `apply()` on the Change Manager then `complete`;
rejection triggers `discard()` then `complete`" — returning the repository
after the decision and the cleared staging area. -/
def resolveDecision (approved : Bool) (staged : List StagedChange)
    (repo : List (String × String)) : List (String × String) × List StagedChange :=
  if approved then (applyChangeSet staged repo, []) else (repo, [])

/-- C1 counterexample: with a recorded PR result the Dashboard mounts the
ApprovalFlow component and it renders its PR-success card although the phase
is `complete` and the staged-change list is empty — so "presented iff the
phase is awaiting_approval and the staged-change list is non-empty" and
"renders nothing for an empty change list" both fail on this state. -/
theorem C1_counterexample :
    dashboardShowsApprovalFlow
      { agentState := { initialAgentState with phase := "complete" },
        stagedChanges := [], isConnected := false,
        prResult := some { url := "https://github.com/x/y/pull/1", number := 1 },
        taskHistory := [], currentTaskId := none, toolCallId := 0 } = true ∧
    approvalFlowRender []
      (some { url := "https://github.com/x/y/pull/1", number := 1 }) ≠
      ApprovalRender.nothing ∧
    ({ agentState := { initialAgentState with phase := "complete" },
       stagedChanges := [], isConnected := false,
       prResult := some { url := "https://github.com/x/y/pull/1", number := 1 },
       taskHistory := [], currentTaskId := none,
       toolCallId := 0 : AgentStore }).agentState.phase ≠ "awaiting_approval" := by
  refine ⟨rfl, ?_, by decide⟩
  intro h
  simp [approvalFlowRender] at h

/-- C1 (amended): an empty ChangeSet at the end of `executing` transitions
directly to `complete`, never `awaiting_approval` (orchestrator modelled
from the spec), and the Dashboard presents the ApprovalFlow iff the phase is
`awaiting_approval` with a non-empty staged-change list OR a PR result from
a prior approval is recorded; when no PR result is recorded, ApprovalFlow
renders nothing iff the change list is empty. -/
theorem C1_amended_approval_presentation (s : AgentStore) :
    endOfExecutingNextPhase [] = "complete" ∧
    endOfExecutingNextPhase [] ≠ "awaiting_approval" ∧
    (dashboardShowsApprovalFlow s = true ↔
      ((s.agentState.phase = "awaiting_approval" ∧ 0 < s.stagedChanges.length) ∨
        s.prResult ≠ none)) ∧
    (s.prResult = none →
      (approvalFlowRender s.stagedChanges s.prResult = ApprovalRender.nothing ↔
        s.stagedChanges = [])) := by
  refine ⟨rfl, by decide, ?_, ?_⟩
  · simp [dashboardShowsApprovalFlow, Option.isSome_iff_ne_none]
  · intro hpr
    rw [hpr]
    simp only [approvalFlowRender]
    by_cases he : s.stagedChanges = []
    · simp [he]
    · simp [he, List.isEmpty_iff]

theorem C1_amended_approval_presentation_witness :
    approvalFlowRender ([] : List StagedChange) none = ApprovalRender.nothing :=
  ((C1_amended_approval_presentation
      { agentState := initialAgentState, stagedChanges := [], isConnected := false,
        prResult := none, taskHistory := [], currentTaskId := none,
        toolCallId := 0 }).2.2.2 rfl).mpr rfl

/-- C2: resolving the approval decision ends the task.  From a store in
`awaiting_approval`, a resolved approve with `success` sets phase `complete`
and clears the staged-change list, and a resolved reject does the same; the
approve request carries `approved = true` and the reject request
`approved = false`, and the backend decision (modelled from the spec)
applies the ChangeSet on approve and leaves the repository untouched on
reject, clearing the staging area either way. -/
theorem C2_approval_resolution (s : AgentStore) (tok : String) (r : ApproveResponse)
    (hphase : s.agentState.phase = "awaiting_approval") (hs : r.success = true) :
    (handleApprove (some tok) (ApiResult.ok r) s).agentState.phase = "complete" ∧
    (handleApprove (some tok) (ApiResult.ok r) s).stagedChanges = [] ∧
    (handleReject (some tok) (ApiResult.ok r) s).agentState.phase = "complete" ∧
    (handleReject (some tok) (ApiResult.ok r) s).stagedChanges = [] ∧
    (∀ selectedRepo, (approveRequestOf selectedRepo s).approved = true) ∧
    rejectRequestBody.approved = false ∧
    (∀ staged repo,
      resolveDecision true staged repo = (applyChangeSet staged repo, []) ∧
      resolveDecision false staged repo = (repo, [])) := by
  refine ⟨?_, ?_, ?_, ?_, fun _ => rfl, rfl, fun staged repo => ⟨rfl, rfl⟩⟩ <;>
    · simp only [handleApprove, handleReject, hs, if_true]
      rcases jsStringOrNone r.pr_url with _ | u <;>
        rcases r.pr_number with _ | k <;>
          rcases s.currentTaskId with _ | tid <;>
            simp [apply_ite (fun t : AgentStore => t.agentState.phase),
              apply_ite (fun t : AgentStore => t.stagedChanges)]

theorem C2_approval_resolution_witness :
    (handleApprove (some "tok")
      (ApiResult.ok { success := true, pr_url := none, pr_number := none,
                      message := "applied" })
      { agentState := { initialAgentState with phase := "awaiting_approval" },
        stagedChanges := [{ path := "hello.txt", changeType := "create",
                            originalContent := none, newContent := "hi" }],
        isConnected := false, prResult := none, taskHistory := [],
        currentTaskId := none, toolCallId := 0 }).agentState.phase = "complete" :=
  (C2_approval_resolution
    { agentState := { initialAgentState with phase := "awaiting_approval" },
      stagedChanges := [{ path := "hello.txt", changeType := "create",
                          originalContent := none, newContent := "hi" }],
      isConnected := false, prResult := none, taskHistory := [],
      currentTaskId := none, toolCallId := 0 }
    "tok"
    { success := true, pr_url := none, pr_number := none, message := "applied" }
    rfl rfl).1

/-- C9: if the approve or reject request throws, the catch block only raises
a toast — the whole store is untouched, so the phase stays
`awaiting_approval` and the staged-change list is unchanged, and the user
can retry the decision. -/
theorem C9_decision_failure_atomic (s : AgentStore) (tok emsg : String)
    (hphase : s.agentState.phase = "awaiting_approval") :
    handleApprove (some tok) (ApiResult.err emsg) s = s ∧
    handleReject (some tok) (ApiResult.err emsg) s = s ∧
    (handleApprove (some tok) (ApiResult.err emsg) s).agentState.phase =
      "awaiting_approval" ∧
    (handleApprove (some tok) (ApiResult.err emsg) s).stagedChanges =
      s.stagedChanges := by
  exact ⟨rfl, rfl, hphase, rfl⟩

theorem C9_decision_failure_atomic_witness :
    handleApprove (some "tok") (ApiResult.err "network")
      { agentState := { initialAgentState with phase := "awaiting_approval" },
        stagedChanges := [], isConnected := false, prResult := none,
        taskHistory := [], currentTaskId := none, toolCallId := 0 } =
      { agentState := { initialAgentState with phase := "awaiting_approval" },
        stagedChanges := [], isConnected := false, prResult := none,
        taskHistory := [], currentTaskId := none, toolCallId := 0 } :=
  (C9_decision_failure_atomic
    { agentState := { initialAgentState with phase := "awaiting_approval" },
      stagedChanges := [], isConnected := false, prResult := none,
      taskHistory := [], currentTaskId := none, toolCallId := 0 }
    "tok" "network" rfl).1

/-- C8: `reset()` restores the per-task fields to their initial values —
phase `idle`, task, summary and error null, empty plan, empty tool-call
list, empty staged-change list, null PR result, null current task id, and
the tool-call id counter at 0 — while leaving `taskHistory` unchanged. -/
theorem C8_reset_restores_initial_keeps_history (s : AgentStore) :
    (reset s).agentState.phase = "idle" ∧
    (reset s).agentState.task = none ∧
    (reset s).agentState.summary = none ∧
    (reset s).agentState.error = none ∧
    (reset s).agentState.plan = [] ∧
    (reset s).agentState.toolCalls = [] ∧
    (reset s).stagedChanges = [] ∧
    (reset s).prResult = none ∧
    (reset s).currentTaskId = none ∧
    (reset s).toolCallId = 0 ∧
    (reset s).taskHistory = s.taskHistory := by
  simp [reset, initialAgentState]

/-- C10: after `addTaskToHistory`, the history has at most 20 entries, its
head is the new item with status `running` and the fresh id, the remaining
entries are the previous history in order (its first 19 entries, a sublist
of the old history), and `currentTaskId` is the new id. -/
theorem C10_addTaskToHistory_bounded (s : AgentStore) (id task : String)
    (repoUrl : Option String) (timestamp : Nat) :
    (addTaskToHistory id task repoUrl timestamp s).taskHistory.length ≤ 20 ∧
    (addTaskToHistory id task repoUrl timestamp s).taskHistory.head? =
      some { id := id, task := task, status := "running", timestamp := timestamp,
             repoUrl := repoUrl, prUrl := none } ∧
    (addTaskToHistory id task repoUrl timestamp s).taskHistory.tail =
      s.taskHistory.take 19 ∧
    (s.taskHistory.take 19).Sublist s.taskHistory ∧
    (addTaskToHistory id task repoUrl timestamp s).currentTaskId = some id := by
  refine ⟨?_, ?_, ?_, List.take_sublist 19 s.taskHistory, rfl⟩
  · simp [addTaskToHistory]
  · simp [addTaskToHistory, List.take_succ_cons]
  · simp [addTaskToHistory, List.take_succ_cons]

end Koda
